import Mathlib

/-!
Verification of the color mixture decomposition engine of
`color_picker.py` (functions `normalize_rgb` and `analyze_color_mix`).

The numeric computations (Python floats, numpy vectors) are modelled over
the real numbers.  A color vector is a triple of reals; an RGB triple is a
triple of integers.  The external NNLS routine `scipy.optimize.nnls` is not
part of the repository, so it is modelled by its documented contract: it
returns a coefficient vector, one coefficient per matrix column, with every
coefficient non-negative.  Everything downstream of that call is a direct
transliteration of the source.
-/

set_option autoImplicit false

namespace ColorPicker

/-- A 3-component real vector (one component per RGB channel). -/
abbrev Vec3 := ℝ × ℝ × ℝ

/-- Squared Euclidean norm of a 3-vector. -/
def normSq (v : Vec3) : ℝ := v.1 ^ 2 + v.2.1 ^ 2 + v.2.2 ^ 2

/-- Euclidean norm of a 3-vector, as computed by `np.linalg.norm`. -/
noncomputable def vnorm (v : Vec3) : ℝ := Real.sqrt (normSq v)

/-- The fitted vector `np.dot(alpha, base_arr)`: the linear combination
`Σ alpha[i] * base_arr[i]` of the basis rows, i.e. the basis matrix (whose
columns are the basis vectors) applied to the coefficient vector. -/
noncomputable def fittedVec (alpha : List ℝ) (basis : List Vec3) : Vec3 :=
  (List.zipWith (fun a v => a • v) alpha basis).sum

/-- Model of the Python color dict: fields `RGB`, `HEX`, `Label` and the
optional `CustomLabel` (absent unless a label was imported or edited). -/
structure Color where
  RGB : ℤ × ℤ × ℤ
  HEX : String
  Label : String
  CustomLabel : Option String
deriving DecidableEq

/-- Model of the per-target result dict built by `analyze_color_mix`. -/
structure MixResult where
  target_color : String
  target_label : String
  target_rgb : ℤ × ℤ × ℤ
  success : Prop
  error : ℝ
  alpha : List ℝ
  contributing_colors : List (String × ℝ)

/-- Contract model of the external solver `scipy.optimize.nnls`.  The code
calls `nnls(base_arr.T, target_rgb)` where the columns of `base_arr.T` are
the normalized base colors; we pass that column list directly.  The
documented contract of `nnls`: the solution vector has one entry per
column and all entries are `≥ 0`. -/
structure NNLSSolver where
  solve : List Vec3 → Vec3 → List ℝ
  length_eq : ∀ basis t, (solve basis t).length = basis.length
  nonneg : ∀ basis t, ∀ x ∈ solve basis t, 0 ≤ x

/-- The function `normalize_rgb(rgb)`: divide each channel by `255.0`. -/
noncomputable def normalize_rgb (rgb : ℤ × ℤ × ℤ) : Vec3 :=
  ((rgb.1 : ℝ) / 255, (rgb.2.1 : ℝ) / 255, (rgb.2.2 : ℝ) / 255)

/-- The negligibility cutoff `1e-3` of the contribution filter. -/
noncomputable def negligibility_cutoff : ℝ := 1 / 1000

/-- The default value `0.05` of the `threshold` parameter. -/
noncomputable def default_threshold : ℝ := 5 / 100

open Classical in
/-- The list comprehension
`[(base_hex[i], alpha[i]) for i in range(len(base_arr)) if alpha[i] > 1e-3]`.
`base_hex` and `alpha` both have length `len(base_arr)`, so pairing by
index and filtering is `filter` over `zip`. -/
noncomputable def contributing (base_hex : List String) (alpha : List ℝ) :
    List (String × ℝ) :=
  (base_hex.zip alpha).filter (fun p => decide (negligibility_cutoff < p.2))

/-- The body of the `for target in target_colors` loop: normalize the
target, run the solver, compute the fitted vector and residual error, and
assemble the result dict. -/
noncomputable def mixResultFor (S : NNLSSolver) (base_arr : List Vec3)
    (base_hex : List String) (threshold : ℝ) (target : Color) : MixResult :=
  let target_rgb := normalize_rgb target.RGB
  let alpha := S.solve base_arr target_rgb
  let fitted := fittedVec alpha base_arr
  let error := vnorm (fitted - target_rgb)
  { target_color := target.HEX
    target_label := target.CustomLabel.getD target.Label
    target_rgb := target.RGB
    success := error ≤ threshold
    error := error
    alpha := alpha
    contributing_colors := contributing base_hex alpha }

/-- The function `analyze_color_mix(base_colors, target_colors,
threshold=0.05)`: returns `[]` when either input list is empty, otherwise
one `MixResult` per target, in target order. -/
noncomputable def analyze_color_mix (S : NNLSSolver)
    (base_colors target_colors : List Color) (threshold : ℝ) :
    List MixResult :=
  if base_colors = [] ∨ target_colors = [] then []
  else
    target_colors.map
      (mixResultFor S (base_colors.map (fun c => normalize_rgb c.RGB))
        (base_colors.map (fun c => c.HEX)) threshold)

/-- The call of `analyze_color_mix` without the `threshold` argument,
which defaults to `0.05`. -/
noncomputable def analyze_color_mix_default (S : NNLSSolver)
    (base_colors target_colors : List Color) : List MixResult :=
  analyze_color_mix S base_colors target_colors default_threshold

/-- The module-level state of `color_picker.py` is the global list
`picked_colors`.  The body of `analyze_color_mix` contains no `global`
statement, reads no module state, and mutates neither argument list (it
only reads them and appends to its own fresh `results` list), so its run
relation threads the global state through unchanged and its value depends
only on the arguments. -/
noncomputable def analyze_color_mix_run (picked : List Color) (S : NNLSSolver)
    (base_colors target_colors : List Color) (threshold : ℝ) :
    List MixResult × List Color :=
  (analyze_color_mix S base_colors target_colors threshold, picked)

/-- Error taxonomy of the specification, §7. -/
inductive EngineError where
  | EmptyBasis
deriving DecidableEq

/-- Modelled from the spec: §7's `EmptyBasis` — `analyzeAll` "raised/
returned when ... invoked with zero base colors" an `EmptyBasis` error,
otherwise the ordinary results.  This definition follows the spec's words
and exists only to be compared with `analyze_color_mix`, which is the
translation of the source. -/
noncomputable def analyzeAll_spec (S : NNLSSolver)
    (base_colors target_colors : List Color) (threshold : ℝ) :
    Except EngineError (List MixResult) :=
  if base_colors = [] then Except.error EngineError.EmptyBasis
  else Except.ok (analyze_color_mix S base_colors target_colors threshold)

/-- A concrete solver satisfying the `nnls` contract (used to instantiate
universally quantified theorems at concrete inputs): it returns the
all-zero coefficient vector. -/
noncomputable def zeroSolver : NNLSSolver where
  solve basis _ := basis.map (fun _ => 0)
  length_eq := by intro basis t; simp
  nonneg := by
    intro basis t x hx
    simp only [List.mem_map] at hx
    obtain ⟨a, -, rfl⟩ := hx
    exact le_refl 0

/-- A concrete in-range base color, red `(255, 0, 0)`. -/
def redBase : Color := ⟨(255, 0, 0), "#ff0000", "基础色", none⟩

/-- A concrete in-range target color, red `(255, 0, 0)`. -/
def redTarget : Color := ⟨(255, 0, 0), "#ff0000", "目标色", none⟩

/-- A malformed target color whose first RGB component `300` lies outside
`[0, 255]`. -/
def badTarget : Color := ⟨(300, 0, 0), "#ffffff", "目标色", none⟩

/-! ### Basic lemmas about the embedding -/

theorem mixResultFor_alpha (S : NNLSSolver) (B : List Vec3) (H : List String)
    (θ : ℝ) (t : Color) :
    (mixResultFor S B H θ t).alpha = S.solve B (normalize_rgb t.RGB) := rfl

theorem mixResultFor_error (S : NNLSSolver) (B : List Vec3) (H : List String)
    (θ : ℝ) (t : Color) :
    (mixResultFor S B H θ t).error =
      vnorm (fittedVec (S.solve B (normalize_rgb t.RGB)) B - normalize_rgb t.RGB) := rfl

theorem mixResultFor_success (S : NNLSSolver) (B : List Vec3) (H : List String)
    (θ : ℝ) (t : Color) :
    (mixResultFor S B H θ t).success =
      (vnorm (fittedVec (S.solve B (normalize_rgb t.RGB)) B - normalize_rgb t.RGB) ≤ θ) := rfl

theorem mixResultFor_contributing (S : NNLSSolver) (B : List Vec3) (H : List String)
    (θ : ℝ) (t : Color) :
    (mixResultFor S B H θ t).contributing_colors =
      contributing H (S.solve B (normalize_rgb t.RGB)) := rfl

theorem analyze_nil_left (S : NNLSSolver) (tgts : List Color) (θ : ℝ) :
    analyze_color_mix S [] tgts θ = [] := by
  unfold analyze_color_mix
  rw [if_pos (Or.inl rfl)]

theorem analyze_nil_right (S : NNLSSolver) (bases : List Color) (θ : ℝ) :
    analyze_color_mix S bases [] θ = [] := by
  unfold analyze_color_mix
  rw [if_pos (Or.inr rfl)]

theorem analyze_eq_map (S : NNLSSolver) (bases tgts : List Color) (θ : ℝ)
    (hb : bases ≠ []) (ht : tgts ≠ []) :
    analyze_color_mix S bases tgts θ =
      tgts.map (mixResultFor S (bases.map (fun c => normalize_rgb c.RGB))
        (bases.map (fun c => c.HEX)) θ) := by
  unfold analyze_color_mix
  rw [if_neg (not_or.mpr ⟨hb, ht⟩)]

theorem analyze_length (S : NNLSSolver) (bases tgts : List Color) (θ : ℝ)
    (hb : bases ≠ []) (ht : tgts ≠ []) :
    (analyze_color_mix S bases tgts θ).length = tgts.length := by
  rw [analyze_eq_map S bases tgts θ hb ht, List.length_map]

theorem analyze_get (S : NNLSSolver) (bases tgts : List Color) (θ : ℝ) (i : ℕ)
    (hi : i < (analyze_color_mix S bases tgts θ).length) (hi2 : i < tgts.length) :
    (analyze_color_mix S bases tgts θ).get ⟨i, hi⟩ =
      mixResultFor S (bases.map (fun c => normalize_rgb c.RGB))
        (bases.map (fun c => c.HEX)) θ (tgts.get ⟨i, hi2⟩) := by
  have hb : bases ≠ [] := by
    rintro rfl
    rw [analyze_nil_left] at hi
    exact absurd hi (by simp)
  have ht : tgts ≠ [] := by
    rintro rfl
    exact absurd hi2 (by simp)
  have h := analyze_eq_map S bases tgts θ hb ht
  rw [List.get_of_eq h, List.get_map]

theorem analyze_mem (S : NNLSSolver) (bases tgts : List Color) (θ : ℝ)
    (r : MixResult) (hr : r ∈ analyze_color_mix S bases tgts θ) :
    ∃ tgt ∈ tgts, r = mixResultFor S (bases.map (fun c => normalize_rgb c.RGB))
        (bases.map (fun c => c.HEX)) θ tgt := by
  unfold analyze_color_mix at hr
  split at hr
  · exact absurd hr (by simp)
  · obtain ⟨tgt, htgt, rfl⟩ := List.mem_map.mp hr
    exact ⟨tgt, htgt, rfl⟩

/-! ### Claim theorems -/

/-- C1: for every non-empty basis and every target, the produced result has
`residual_error` equal to the Euclidean norm of (basis-matrix · coefficients
− normalized target), `success` holds exactly when `residual_error ≤
threshold`, and the threshold defaults to `0.05` when not supplied. -/
theorem analyze_residual_and_success (S : NNLSSolver) (bases tgts : List Color)
    (θ : ℝ) (hb : bases ≠ []) (i : ℕ) (hi2 : i < tgts.length)
    (hi : i < (analyze_color_mix S bases tgts θ).length) :
    ((analyze_color_mix S bases tgts θ).get ⟨i, hi⟩).error =
      vnorm (fittedVec ((analyze_color_mix S bases tgts θ).get ⟨i, hi⟩).alpha
        (bases.map (fun c => normalize_rgb c.RGB)) -
          normalize_rgb (tgts.get ⟨i, hi2⟩).RGB) ∧
    (((analyze_color_mix S bases tgts θ).get ⟨i, hi⟩).success ↔
      ((analyze_color_mix S bases tgts θ).get ⟨i, hi⟩).error ≤ θ) ∧
    analyze_color_mix_default S bases tgts = analyze_color_mix S bases tgts (5 / 100) := by
  rw [analyze_get S bases tgts θ i hi hi2]
  refine ⟨rfl, ?_, rfl⟩
  rw [mixResultFor_success, mixResultFor_error]

/-- Witness for C1 at a one-color basis and one target. -/
theorem analyze_residual_and_success_witness :
    ((analyze_color_mix zeroSolver [redBase] [redTarget] (5 / 100)).get
        ⟨0, by rw [analyze_length] <;> simp⟩).error =
      vnorm (fittedVec ((analyze_color_mix zeroSolver [redBase] [redTarget] (5 / 100)).get
        ⟨0, by rw [analyze_length] <;> simp⟩).alpha
        ([redBase].map (fun c => normalize_rgb c.RGB)) -
          normalize_rgb (([redTarget].get ⟨0, by simp⟩).RGB)) ∧
    (((analyze_color_mix zeroSolver [redBase] [redTarget] (5 / 100)).get
        ⟨0, by rw [analyze_length] <;> simp⟩).success ↔
      ((analyze_color_mix zeroSolver [redBase] [redTarget] (5 / 100)).get
        ⟨0, by rw [analyze_length] <;> simp⟩).error ≤ 5 / 100) ∧
    analyze_color_mix_default zeroSolver [redBase] [redTarget] =
      analyze_color_mix zeroSolver [redBase] [redTarget] (5 / 100) :=
  analyze_residual_and_success zeroSolver [redBase] [redTarget] (5 / 100)
    (by simp) 0 (by simp) (by rw [analyze_length] <;> simp)

/-- C2 (amended): with zero base colors `analyze_color_mix` simply returns
the empty result list — no `MixResult` is produced for any target — and no
distinct `EmptyBasis` error condition is raised or returned. -/
theorem analyze_empty_basis (S : NNLSSolver) (tgts : List Color) (θ : ℝ) :
    analyze_color_mix S [] tgts θ = [] := by
  unfold analyze_color_mix
  rw [if_pos (Or.inl rfl)]

/-- C2 counterexample: at an empty basis with one target the code returns
the plain empty list — the same ordinary value as the declared-non-error
empty-target case — whereas the spec's `analyzeAll` (§7) demands the
`EmptyBasis` error, so `Except.ok` of the code's output differs from the
spec-modelled output. -/
theorem analyze_empty_basis_counterexample :
    analyze_color_mix zeroSolver [] [redTarget] (5 / 100) = ([] : List MixResult) ∧
    analyze_color_mix zeroSolver [redBase] [] (5 / 100) = ([] : List MixResult) ∧
    analyzeAll_spec zeroSolver [] [redTarget] (5 / 100) =
      Except.error EngineError.EmptyBasis ∧
    Except.ok (analyze_color_mix zeroSolver [] [redTarget] (5 / 100)) ≠
      analyzeAll_spec zeroSolver [] [redTarget] (5 / 100) := by
  refine ⟨analyze_nil_left _ _ _, analyze_nil_right _ _ _, ?_, ?_⟩
  · unfold analyzeAll_spec
    rw [if_pos rfl]
  · unfold analyzeAll_spec
    rw [if_pos rfl]
    simp

/-- C3 (amended): `analyze_color_mix` performs no validation of the
threshold's sign or of the RGB range: for every non-empty basis and target
list, every threshold (negative included) and arbitrary integer RGB
components, the solver runs and one `MixResult` is computed per target. -/
theorem analyze_no_input_validation (S : NNLSSolver) (bases tgts : List Color)
    (θ : ℝ) (hb : bases ≠ []) (ht : tgts ≠ []) :
    (analyze_color_mix S bases tgts θ).length = tgts.length :=
  analyze_length S bases tgts θ hb ht

/-- Witness for C3 (amended), instantiated at a negative threshold and a
target whose RGB lies outside `[0, 255]`. -/
theorem analyze_no_input_validation_witness :
    (analyze_color_mix zeroSolver [redBase] [badTarget] (-(5 / 100))).length =
      [badTarget].length :=
  analyze_no_input_validation zeroSolver [redBase] [badTarget] (-(5 / 100))
    (by simp) (by simp)

/-- C3 counterexample: with the negative threshold `-0.05` and the
out-of-range target RGB `(300, 0, 0)` the input is not rejected: a
`MixResult` is computed and the NNLS solver is invoked on the unclamped
normalized target. -/
theorem analyze_invalid_input_counterexample :
    (analyze_color_mix zeroSolver [redBase] [badTarget] (-(5 / 100))).length = 1 ∧
    (analyze_color_mix zeroSolver [redBase] [badTarget] (-(5 / 100))).head?.map
        (fun r => r.alpha) =
      some (zeroSolver.solve [normalize_rgb (255, 0, 0)] (normalize_rgb (300, 0, 0))) := by
  rw [analyze_eq_map zeroSolver [redBase] [badTarget] (-(5 / 100)) (by simp) (by simp)]
  exact ⟨rfl, rfl⟩

/-- C7: with a non-empty basis and zero target colors, `analyze_color_mix`
returns the empty result sequence (and, being a total function into
`List MixResult`, signals no error). -/
theorem analyze_empty_targets (S : NNLSSolver) (bases : List Color) (θ : ℝ)
    (hb : bases ≠ []) :
    analyze_color_mix S bases [] θ = [] :=
  analyze_nil_right S bases θ

/-- Witness for C7 at a concrete non-empty basis. -/
theorem analyze_empty_targets_witness :
    analyze_color_mix zeroSolver [redBase] [] (5 / 100) = [] :=
  analyze_empty_targets zeroSolver [redBase] (5 / 100) (by simp)

/-- C4: every coefficient of every returned result is non-negative (hence
in particular `≥ -1e-9`): the NNLS constraint is never violated. -/
theorem analyze_alpha_nonneg (S : NNLSSolver) (bases tgts : List Color) (θ : ℝ)
    (r : MixResult) (hr : r ∈ analyze_color_mix S bases tgts θ)
    (x : ℝ) (hx : x ∈ r.alpha) :
    0 ≤ x ∧ -(1 / 1000000000 : ℝ) ≤ x := by
  obtain ⟨tgt, -, rfl⟩ := analyze_mem S bases tgts θ r hr
  rw [mixResultFor_alpha] at hx
  have h0 := S.nonneg _ _ x hx
  exact ⟨h0, le_trans (by norm_num) h0⟩

/-- Witness for C4 at the coefficient `0` of a concrete run. -/
theorem analyze_alpha_nonneg_witness :
    (0 : ℝ) ≤ 0 ∧ -(1 / 1000000000 : ℝ) ≤ 0 :=
  analyze_alpha_nonneg zeroSolver [redBase] [redTarget] (5 / 100)
    (mixResultFor zeroSolver ([redBase].map (fun c => normalize_rgb c.RGB))
      ([redBase].map (fun c => c.HEX)) (5 / 100) redTarget)
    (by
      rw [analyze_eq_map zeroSolver [redBase] [redTarget] (5 / 100) (by simp) (by simp)]
      simp)
    0
    (by
      rw [mixResultFor_alpha]
      simp [zeroSolver])

/-- C5: the contributions list of every result is exactly the list of
`(base_hex, coefficient)` pairs with coefficient strictly above the
`1e-3` cutoff, an index-aligned subsequence of the hex/coefficient pairs
in basis order, never reordered. -/
theorem analyze_contributions_spec (S : NNLSSolver) (bases tgts : List Color)
    (θ : ℝ) (i : ℕ) (hi2 : i < tgts.length)
    (hi : i < (analyze_color_mix S bases tgts θ).length) :
    negligibility_cutoff = 1 / 1000 ∧
    ((analyze_color_mix S bases tgts θ).get ⟨i, hi⟩).contributing_colors.Sublist
      ((bases.map (fun c => c.HEX)).zip
        ((analyze_color_mix S bases tgts θ).get ⟨i, hi⟩).alpha) ∧
    ∀ p : String × ℝ,
      p ∈ ((analyze_color_mix S bases tgts θ).get ⟨i, hi⟩).contributing_colors ↔
        p ∈ (bases.map (fun c => c.HEX)).zip
            ((analyze_color_mix S bases tgts θ).get ⟨i, hi⟩).alpha ∧
          negligibility_cutoff < p.2 := by
  rw [analyze_get S bases tgts θ i hi hi2, mixResultFor_contributing, mixResultFor_alpha]
  unfold contributing
  refine ⟨rfl, List.filter_sublist _, fun p => ?_⟩
  rw [List.mem_filter]
  simp only [decide_eq_true_eq]

/-- Witness for C5 at a one-color basis and one target. -/
theorem analyze_contributions_spec_witness :
    negligibility_cutoff = 1 / 1000 ∧
    ((analyze_color_mix zeroSolver [redBase] [redTarget] (5 / 100)).get
        ⟨0, by rw [analyze_length] <;> simp⟩).contributing_colors.Sublist
      (([redBase].map (fun c => c.HEX)).zip
        ((analyze_color_mix zeroSolver [redBase] [redTarget] (5 / 100)).get
          ⟨0, by rw [analyze_length] <;> simp⟩).alpha) ∧
    ∀ p : String × ℝ,
      p ∈ ((analyze_color_mix zeroSolver [redBase] [redTarget] (5 / 100)).get
          ⟨0, by rw [analyze_length] <;> simp⟩).contributing_colors ↔
        p ∈ ([redBase].map (fun c => c.HEX)).zip
            ((analyze_color_mix zeroSolver [redBase] [redTarget] (5 / 100)).get
              ⟨0, by rw [analyze_length] <;> simp⟩).alpha ∧
          negligibility_cutoff < p.2 :=
  analyze_contributions_spec zeroSolver [redBase] [redTarget] (5 / 100) 0
    (by simp) (by rw [analyze_length] <;> simp)

/-- C6: changing only the threshold never changes the number of results nor
any field of a result other than `success`: the coefficient vector,
residual error, contributions and target data are identical. -/
theorem analyze_threshold_frame (S : NNLSSolver) (bases tgts : List Color)
    (θ1 θ2 : ℝ) (i : ℕ)
    (h1 : i < (analyze_color_mix S bases tgts θ1).length)
    (h2 : i < (analyze_color_mix S bases tgts θ2).length) :
    (analyze_color_mix S bases tgts θ1).length =
      (analyze_color_mix S bases tgts θ2).length ∧
    ((analyze_color_mix S bases tgts θ1).get ⟨i, h1⟩).alpha =
      ((analyze_color_mix S bases tgts θ2).get ⟨i, h2⟩).alpha ∧
    ((analyze_color_mix S bases tgts θ1).get ⟨i, h1⟩).error =
      ((analyze_color_mix S bases tgts θ2).get ⟨i, h2⟩).error ∧
    ((analyze_color_mix S bases tgts θ1).get ⟨i, h1⟩).contributing_colors =
      ((analyze_color_mix S bases tgts θ2).get ⟨i, h2⟩).contributing_colors ∧
    ((analyze_color_mix S bases tgts θ1).get ⟨i, h1⟩).target_color =
      ((analyze_color_mix S bases tgts θ2).get ⟨i, h2⟩).target_color ∧
    ((analyze_color_mix S bases tgts θ1).get ⟨i, h1⟩).target_label =
      ((analyze_color_mix S bases tgts θ2).get ⟨i, h2⟩).target_label ∧
    ((analyze_color_mix S bases tgts θ1).get ⟨i, h1⟩).target_rgb =
      ((analyze_color_mix S bases tgts θ2).get ⟨i, h2⟩).target_rgb := by
  have hb : bases ≠ [] := by
    rintro rfl
    rw [analyze_nil_left] at h1
    exact absurd h1 (by simp)
  have ht : tgts ≠ [] := by
    rintro rfl
    rw [analyze_nil_right] at h1
    exact absurd h1 (by simp)
  have hi2 : i < tgts.length := by
    rwa [analyze_length S bases tgts θ1 hb ht] at h1
  refine ⟨?_, ?_⟩
  · rw [analyze_length S bases tgts θ1 hb ht, analyze_length S bases tgts θ2 hb ht]
  · rw [analyze_get S bases tgts θ1 i h1 hi2, analyze_get S bases tgts θ2 i h2 hi2]
    exact ⟨rfl, rfl, rfl, rfl, rfl, rfl⟩

/-- Witness for C6 with thresholds `0.05` and `7`. -/
theorem analyze_threshold_frame_witness :
    (analyze_color_mix zeroSolver [redBase] [redTarget] (5 / 100)).length =
      (analyze_color_mix zeroSolver [redBase] [redTarget] 7).length ∧
    ((analyze_color_mix zeroSolver [redBase] [redTarget] (5 / 100)).get
        ⟨0, by rw [analyze_length] <;> simp⟩).alpha =
      ((analyze_color_mix zeroSolver [redBase] [redTarget] 7).get
        ⟨0, by rw [analyze_length] <;> simp⟩).alpha ∧
    ((analyze_color_mix zeroSolver [redBase] [redTarget] (5 / 100)).get
        ⟨0, by rw [analyze_length] <;> simp⟩).error =
      ((analyze_color_mix zeroSolver [redBase] [redTarget] 7).get
        ⟨0, by rw [analyze_length] <;> simp⟩).error ∧
    ((analyze_color_mix zeroSolver [redBase] [redTarget] (5 / 100)).get
        ⟨0, by rw [analyze_length] <;> simp⟩).contributing_colors =
      ((analyze_color_mix zeroSolver [redBase] [redTarget] 7).get
        ⟨0, by rw [analyze_length] <;> simp⟩).contributing_colors ∧
    ((analyze_color_mix zeroSolver [redBase] [redTarget] (5 / 100)).get
        ⟨0, by rw [analyze_length] <;> simp⟩).target_color =
      ((analyze_color_mix zeroSolver [redBase] [redTarget] 7).get
        ⟨0, by rw [analyze_length] <;> simp⟩).target_color ∧
    ((analyze_color_mix zeroSolver [redBase] [redTarget] (5 / 100)).get
        ⟨0, by rw [analyze_length] <;> simp⟩).target_label =
      ((analyze_color_mix zeroSolver [redBase] [redTarget] 7).get
        ⟨0, by rw [analyze_length] <;> simp⟩).target_label ∧
    ((analyze_color_mix zeroSolver [redBase] [redTarget] (5 / 100)).get
        ⟨0, by rw [analyze_length] <;> simp⟩).target_rgb =
      ((analyze_color_mix zeroSolver [redBase] [redTarget] 7).get
        ⟨0, by rw [analyze_length] <;> simp⟩).target_rgb :=
  analyze_threshold_frame zeroSolver [redBase] [redTarget] (5 / 100) 7 0
    (by rw [analyze_length] <;> simp) (by rw [analyze_length] <;> simp)

/-- C8: for every RGB triple of integers in `[0, 255]`, `normalize_rgb`
returns the componentwise division by `255` — three values in `[0, 1]` —
and the same `normalize_rgb` is applied to the basis colors and the target
color handed to the solver. -/
theorem normalize_rgb_contract (r g b : ℤ)
    (hr0 : 0 ≤ r) (hr1 : r ≤ 255) (hg0 : 0 ≤ g) (hg1 : g ≤ 255)
    (hb0 : 0 ≤ b) (hb1 : b ≤ 255) :
    normalize_rgb (r, g, b) = ((r : ℝ) / 255, (g : ℝ) / 255, (b : ℝ) / 255) ∧
    (0 ≤ (normalize_rgb (r, g, b)).1 ∧ (normalize_rgb (r, g, b)).1 ≤ 1) ∧
    (0 ≤ (normalize_rgb (r, g, b)).2.1 ∧ (normalize_rgb (r, g, b)).2.1 ≤ 1) ∧
    (0 ≤ (normalize_rgb (r, g, b)).2.2 ∧ (normalize_rgb (r, g, b)).2.2 ≤ 1) ∧
    ∀ (S : NNLSSolver) (bases tgts : List Color) (θ : ℝ) (i : ℕ)
      (hi2 : i < tgts.length) (hi : i < (analyze_color_mix S bases tgts θ).length),
      ((analyze_color_mix S bases tgts θ).get ⟨i, hi⟩).alpha =
        S.solve (bases.map (fun c => normalize_rgb c.RGB))
          (normalize_rgb (tgts.get ⟨i, hi2⟩).RGB) := by
  have bound : ∀ z : ℤ, 0 ≤ z → z ≤ 255 → 0 ≤ (z : ℝ) / 255 ∧ (z : ℝ) / 255 ≤ 1 := by
    intro z h0 h1
    constructor
    · apply div_nonneg _ (by norm_num)
      exact_mod_cast h0
    · rw [div_le_one (by norm_num)]
      exact_mod_cast h1
  refine ⟨rfl, bound r hr0 hr1, bound g hg0 hg1, bound b hb0 hb1, ?_⟩
  intro S bases tgts θ i hi2 hi
  rw [analyze_get S bases tgts θ i hi hi2, mixResultFor_alpha]

/-- Witness for C8 at the triple `(0, 255, 128)`. -/
theorem normalize_rgb_contract_witness :
    normalize_rgb (0, 255, 128) =
      (((0 : ℤ) : ℝ) / 255, ((255 : ℤ) : ℝ) / 255, ((128 : ℤ) : ℝ) / 255) ∧
    (0 ≤ (normalize_rgb (0, 255, 128)).1 ∧ (normalize_rgb (0, 255, 128)).1 ≤ 1) ∧
    (0 ≤ (normalize_rgb (0, 255, 128)).2.1 ∧ (normalize_rgb (0, 255, 128)).2.1 ≤ 1) ∧
    (0 ≤ (normalize_rgb (0, 255, 128)).2.2 ∧ (normalize_rgb (0, 255, 128)).2.2 ≤ 1) ∧
    ∀ (S : NNLSSolver) (bases tgts : List Color) (θ : ℝ) (i : ℕ)
      (hi2 : i < tgts.length) (hi : i < (analyze_color_mix S bases tgts θ).length),
      ((analyze_color_mix S bases tgts θ).get ⟨i, hi⟩).alpha =
        S.solve (bases.map (fun c => normalize_rgb c.RGB))
          (normalize_rgb (tgts.get ⟨i, hi2⟩).RGB) :=
  normalize_rgb_contract 0 255 128 (by decide) (by decide) (by decide)
    (by decide) (by decide) (by decide)

/-- C9: the decomposition is a pure function of its inputs.  With the
module state (the global `picked_colors` list) threaded explicitly, a run
leaves the state unchanged, its results do not depend on the state, and a
second run on the state left by the first yields identical results. -/
theorem analyze_pure_no_hidden_state (S : NNLSSolver)
    (picked picked2 bases tgts : List Color) (θ : ℝ) :
    (analyze_color_mix_run picked S bases tgts θ).2 = picked ∧
    (analyze_color_mix_run picked S bases tgts θ).1 =
      (analyze_color_mix_run picked2 S bases tgts θ).1 ∧
    (analyze_color_mix_run (analyze_color_mix_run picked S bases tgts θ).2
        S bases tgts θ).1 =
      (analyze_color_mix_run picked S bases tgts θ).1 :=
  ⟨rfl, rfl, rfl⟩

/-- C10: `normalize_rgb` is total over all integer triples and performs no
range check: a component above `255` yields a normalized component above
`1`, and such a target still flows into the solver — `analyze_color_mix`
produces a result whose coefficients are the solver's output on the
unclamped normalized vector. -/
theorem normalize_rgb_unchecked (S : NNLSSolver) (bases : List Color) (θ : ℝ)
    (r g b : ℤ) (hb : bases ≠ []) (hr : 255 < r) (tgt : Color)
    (htgt : tgt.RGB = (r, g, b)) :
    normalize_rgb (r, g, b) = ((r : ℝ) / 255, (g : ℝ) / 255, (b : ℝ) / 255) ∧
    1 < (normalize_rgb (r, g, b)).1 ∧
    (analyze_color_mix S bases [tgt] θ).length = 1 ∧
    (analyze_color_mix S bases [tgt] θ).head?.map (fun x => x.alpha) =
      some (S.solve (bases.map (fun c => normalize_rgb c.RGB))
        (normalize_rgb (r, g, b))) := by
  refine ⟨rfl, ?_, ?_, ?_⟩
  · show (1 : ℝ) < (r : ℝ) / 255
    rw [one_lt_div (by norm_num : (0 : ℝ) < 255)]
    exact_mod_cast hr
  · rw [analyze_length S bases [tgt] θ hb (by simp)]
    rfl
  · rw [analyze_eq_map S bases [tgt] θ hb (by simp)]
    simp [mixResultFor_alpha, htgt]

/-- Witness for C10 at the out-of-range triple `(300, 0, 0)`. -/
theorem normalize_rgb_unchecked_witness :
    normalize_rgb (300, 0, 0) =
      (((300 : ℤ) : ℝ) / 255, ((0 : ℤ) : ℝ) / 255, ((0 : ℤ) : ℝ) / 255) ∧
    1 < (normalize_rgb (300, 0, 0)).1 ∧
    (analyze_color_mix zeroSolver [redBase] [badTarget] (5 / 100)).length = 1 ∧
    (analyze_color_mix zeroSolver [redBase] [badTarget] (5 / 100)).head?.map
        (fun x => x.alpha) =
      some (zeroSolver.solve ([redBase].map (fun c => normalize_rgb c.RGB))
        (normalize_rgb (300, 0, 0))) :=
  normalize_rgb_unchecked zeroSolver [redBase] (5 / 100) 300 0 0 (by simp)
    (by decide) badTarget rfl

end ColorPicker
